import Mathlib

/-!
Verification of the PRP dosage calculator (src/api/calculate.js, the canonical
variant with recovery/activation rates and the double-spin protocol).

Modelling conventions:
* JavaScript numbers are modelled as exact rationals (ℚ); the formulas are
  plain field arithmetic on values far from floating-point extremes, and the
  specification states them over real numbers.
* `Math.ceil` is `Int.ceil`, `Math.round` is the Mathlib `round`
  (both round half towards positive infinity, as in JavaScript);
  `x.toFixed(n)` displayed in a message is modelled by the rational
  `round (x * 10 ^ n) / 10 ^ n` that the rendered digits denote.
* The recursive retry in `getTreatmentPlan` recurses with `iteration + 1`
  only under the guard `iteration < 3`; we realise it with a structural
  fuel parameter.  Fuel 4 strictly exceeds the possible call depth from any
  starting iteration (lemma `getTreatmentPlanAux_fuel_irrelevant` shows the
  value is independent of the fuel once it exceeds `3 - iteration`), so the
  fuel never runs out and the embedding agrees with the source recursion.
* The fallible entry point `calculatePRPDosage` returns `Except String _`:
  `Except.error msg` models `throw new Error(msg)`.
* Optional JSON fields are `Option ℚ`; the JavaScript idiom
  `parseFloat(inputData.x || d)` is `jsOr`, which also maps an explicit 0
  to the default because 0 is falsy.
-/

namespace PRP

/-- One anatomical treatment zone (source: `ZONES` entries, calculate.js 5-20). -/
structure ZoneConfig where
  name : String
  minPlatelets : ℚ
  maxPlatelets : ℚ
  targetPlatelets : ℚ
  minVolume : ℚ
deriving Repr, DecidableEq

/-- The `temporal_crown` entry of `ZONES` (calculate.js 6-12). -/
def temporal_crown : ZoneConfig :=
  { name := "Temporal/Crown"
    minPlatelets := 1800000000
    maxPlatelets := 5000000000
    targetPlatelets := 2500000000
    minVolume := 2.0 }

/-- The `full_scalp` entry of `ZONES` (calculate.js 13-19). -/
def full_scalp : ZoneConfig :=
  { name := "Full Scalp"
    minPlatelets := 3600000000
    maxPlatelets := 10000000000
    targetPlatelets := 6000000000
    minVolume := 4.0 }

def OPTIMAL_MIN_PLATELETS_PER_UL : ℚ := 1000000

def OPTIMAL_MAX_PLATELETS_PER_UL : ℚ := 1500000

/-- Double spin protocol configuration (calculate.js 26-32). -/
structure DoubleSpinConfig where
  enabled : Bool
  minConcentrationThreshold : ℚ
  concentrationMultiplier : ℚ
  prpYieldPerTube : ℚ
  requiresEvenTubes : Bool
deriving Repr, DecidableEq

def DOUBLE_SPIN_CONFIG : DoubleSpinConfig :=
  { enabled := true
    minConcentrationThreshold := 1000000
    concentrationMultiplier := 7.0
    prpYieldPerTube := 2.0
    requiresEvenTubes := true }

/-- The per-request derived quantities shared by both zones
(source: `baseConcentrations`, calculate.js 227-236). -/
structure BaseConcentrations where
  plateletsPerMLofPRP : ℚ
  finalPrpConcentrationPerUL : ℚ
  finalPppConcentrationPerUL : ℚ
  prpYieldPerTube : ℚ
  baselinePlateletsPerUL : ℚ
  recoveryRate : ℚ
  activationRate : ℚ
  prpConcentrationX : ℚ
deriving Repr, DecidableEq

/-- Builds `baseConcentrations` from the validated inputs (calculate.js 219-236). -/
def mkBaseConcentrations (patientThrombocytesGL prpYieldPerTube prpConcentrationX
    pppConcentrationX recoveryRate activationRate : ℚ) : BaseConcentrations :=
  { plateletsPerMLofPRP := patientThrombocytesGL * 1000 * prpConcentrationX * 1000
    finalPrpConcentrationPerUL := patientThrombocytesGL * 1000 * prpConcentrationX
    finalPppConcentrationPerUL := patientThrombocytesGL * 1000 * pppConcentrationX
    prpYieldPerTube := prpYieldPerTube
    baselinePlateletsPerUL := patientThrombocytesGL * 1000
    recoveryRate := recoveryRate
    activationRate := activationRate
    prpConcentrationX := prpConcentrationX }

/-! ### The zone planner, `getTreatmentPlan` (calculate.js 35-191)

Each `let`-bound intermediate of the source function becomes a named
definition so that theorems can speak about it directly. -/

/-- calculate.js 40-44. -/
def effectivePrpConcentration (base : BaseConcentrations) (useDoubleSpin : Bool) : ℚ :=
  if useDoubleSpin && DOUBLE_SPIN_CONFIG.enabled then
    base.finalPrpConcentrationPerUL * (DOUBLE_SPIN_CONFIG.concentrationMultiplier / 4.0)
  else
    base.finalPrpConcentrationPerUL

/-- calculate.js 41-45. -/
def effectivePrpYield (base : BaseConcentrations) (useDoubleSpin : Bool) : ℚ :=
  if useDoubleSpin && DOUBLE_SPIN_CONFIG.enabled then
    DOUBLE_SPIN_CONFIG.prpYieldPerTube
  else
    base.prpYieldPerTube

/-- calculate.js 49: double spin has 20% lower recovery. -/
def effectiveRecoveryRate (base : BaseConcentrations) (useDoubleSpin : Bool) : ℚ :=
  if useDoubleSpin then base.recoveryRate * 0.8 else base.recoveryRate

/-- calculate.js 52. -/
def recoveredPlateletsPerUL (base : BaseConcentrations) (useDoubleSpin : Bool) : ℚ :=
  base.baselinePlateletsPerUL * (effectiveRecoveryRate base useDoubleSpin / 100)

/-- calculate.js 53. -/
def activatedPlateletsPerUL (base : BaseConcentrations) (useDoubleSpin : Bool) : ℚ :=
  recoveredPlateletsPerUL base useDoubleSpin * (base.activationRate / 100)

/-- calculate.js 54. -/
def inactivatedPlateletsPerUL (base : BaseConcentrations) (useDoubleSpin : Bool) : ℚ :=
  recoveredPlateletsPerUL base useDoubleSpin * ((100 - base.activationRate) / 100)

/-- calculate.js 65. -/
def recoveryFactor (base : BaseConcentrations) (useDoubleSpin : Bool) : ℚ :=
  effectiveRecoveryRate base useDoubleSpin / 100

/-- calculate.js 66 (the JavaScript division never sees a zero denominator for
inputs that pass validation and default filling, where the recovery rate is
positive). -/
def adjustedMinPlatelets (zone : ZoneConfig) (base : BaseConcentrations)
    (useDoubleSpin : Bool) : ℚ :=
  zone.minPlatelets / recoveryFactor base useDoubleSpin

/-- calculate.js 68. -/
def optimalPrpVolumeML (zone : ZoneConfig) (base : BaseConcentrations)
    (useDoubleSpin : Bool) : ℚ :=
  adjustedMinPlatelets zone base useDoubleSpin /
    (effectivePrpConcentration base useDoubleSpin * 1000)

/-- calculate.js 71: `Math.max(1, Math.ceil(optimalPrpVolumeML / effectivePrpYield) + iteration)`. -/
def tubesNeeded (zone : ZoneConfig) (base : BaseConcentrations) (iteration : ℕ)
    (useDoubleSpin : Bool) : ℤ :=
  max 1 (⌈optimalPrpVolumeML zone base useDoubleSpin / effectivePrpYield base useDoubleSpin⌉
    + (iteration : ℤ))

/-- calculate.js 74. -/
def totalPrpExtractedML (zone : ZoneConfig) (base : BaseConcentrations) (iteration : ℕ)
    (useDoubleSpin : Bool) : ℚ :=
  (tubesNeeded zone base iteration useDoubleSpin : ℚ) * effectivePrpYield base useDoubleSpin

/-- calculate.js 78 (computed but not used further by the source). -/
def totalPlateletsFromPRP (zone : ZoneConfig) (base : BaseConcentrations) (iteration : ℕ)
    (useDoubleSpin : Bool) : ℚ :=
  totalPrpExtractedML zone base iteration useDoubleSpin *
    effectivePrpConcentration base useDoubleSpin * 1000

/-- Dilution PPP (calculate.js 85-97): only when PRP alone meets the minimum
volume and its concentration exceeds the optimal maximum, guarded by a
positive dilution denominator. -/
def concentrationPppML (zone : ZoneConfig) (base : BaseConcentrations) (iteration : ℕ)
    (useDoubleSpin : Bool) : ℚ :=
  if totalPrpExtractedML zone base iteration useDoubleSpin ≥ zone.minVolume then
    if effectivePrpConcentration base useDoubleSpin > OPTIMAL_MAX_PLATELETS_PER_UL then
      if OPTIMAL_MAX_PLATELETS_PER_UL - base.finalPppConcentrationPerUL > 0 then
        totalPrpExtractedML zone base iteration useDoubleSpin *
            (effectivePrpConcentration base useDoubleSpin - OPTIMAL_MAX_PLATELETS_PER_UL) /
          (OPTIMAL_MAX_PLATELETS_PER_UL - base.finalPppConcentrationPerUL)
      else 0
    else 0
  else 0

/-- calculate.js 100. -/
def baseVolumeTopUp (zone : ZoneConfig) (base : BaseConcentrations) (iteration : ℕ)
    (useDoubleSpin : Bool) : ℚ :=
  zone.minVolume - totalPrpExtractedML zone base iteration useDoubleSpin

/-- calculate.js 103-105: the concentration the mixture would have after a
minimum-volume top-up with PPP. -/
def testConcentration (zone : ZoneConfig) (base : BaseConcentrations) (iteration : ℕ)
    (useDoubleSpin : Bool) : ℚ :=
  (totalPrpExtractedML zone base iteration useDoubleSpin *
      effectivePrpConcentration base useDoubleSpin * 1000 +
    baseVolumeTopUp zone base iteration useDoubleSpin *
      base.finalPppConcentrationPerUL * 1000) /
    (zone.minVolume * 1000)

/-- Volume top-up PPP (calculate.js 85-115).  NOTE: the two source branches
of the `testConcentration` comparison (lines 107-114) assign the same value
`baseVolumeTopUp`; the conditional is kept here exactly as written. -/
def volumeTopUpPppML (zone : ZoneConfig) (base : BaseConcentrations) (iteration : ℕ)
    (useDoubleSpin : Bool) : ℚ :=
  if totalPrpExtractedML zone base iteration useDoubleSpin ≥ zone.minVolume then 0
  else
    if testConcentration zone base iteration useDoubleSpin ≥ OPTIMAL_MIN_PLATELETS_PER_UL then
      baseVolumeTopUp zone base iteration useDoubleSpin
    else
      baseVolumeTopUp zone base iteration useDoubleSpin

/-- calculate.js 117. -/
def totalPppNeededML (zone : ZoneConfig) (base : BaseConcentrations) (iteration : ℕ)
    (useDoubleSpin : Bool) : ℚ :=
  concentrationPppML zone base iteration useDoubleSpin +
    volumeTopUpPppML zone base iteration useDoubleSpin

/-- calculate.js 118. -/
def totalInjectionVolume (zone : ZoneConfig) (base : BaseConcentrations) (iteration : ℕ)
    (useDoubleSpin : Bool) : ℚ :=
  totalPrpExtractedML zone base iteration useDoubleSpin +
    totalPppNeededML zone base iteration useDoubleSpin

/-- calculate.js 122. -/
def totalPlatelets (zone : ZoneConfig) (base : BaseConcentrations) (iteration : ℕ)
    (useDoubleSpin : Bool) : ℚ :=
  totalPrpExtractedML zone base iteration useDoubleSpin *
      effectivePrpConcentration base useDoubleSpin * 1000 +
    totalPppNeededML zone base iteration useDoubleSpin *
      base.finalPppConcentrationPerUL * 1000

/-- calculate.js 123. -/
def finalMixtureConcentration (zone : ZoneConfig) (base : BaseConcentrations) (iteration : ℕ)
    (useDoubleSpin : Bool) : ℚ :=
  if totalInjectionVolume zone base iteration useDoubleSpin > 0 then
    totalPlatelets zone base iteration useDoubleSpin /
      (totalInjectionVolume zone base iteration useDoubleSpin * 1000)
  else 0

/-- Status of a value against a clinical range (calculate.js 160-172). -/
inductive RangeStatus
  | below_min
  | optimal
  | above_max
deriving Repr, DecidableEq

/-- calculate.js 160-165. -/
def concentrationStatus (zone : ZoneConfig) (base : BaseConcentrations) (iteration : ℕ)
    (useDoubleSpin : Bool) : RangeStatus :=
  if finalMixtureConcentration zone base iteration useDoubleSpin <
      OPTIMAL_MIN_PLATELETS_PER_UL then .below_min
  else if finalMixtureConcentration zone base iteration useDoubleSpin >
      OPTIMAL_MAX_PLATELETS_PER_UL then .above_max
  else .optimal

/-- calculate.js 167-172. -/
def plateletCountStatus (zone : ZoneConfig) (base : BaseConcentrations) (iteration : ℕ)
    (useDoubleSpin : Bool) : RangeStatus :=
  if totalPlatelets zone base iteration useDoubleSpin < zone.minPlatelets then .below_min
  else if totalPlatelets zone base iteration useDoubleSpin > zone.maxPlatelets then .above_max
  else .optimal

/-- Rounding to one decimal place, `Math.round(x * 10) / 10`. -/
def round1 (q : ℚ) : ℚ := (round (q * 10) : ℤ) / 10

/-- Rounding to two decimal places, `Math.round(x * 100) / 100`. -/
def round2 (q : ℚ) : ℚ := (round (q * 100) : ℤ) / 100

/-- The object returned by `getTreatmentPlan` (calculate.js 174-190).
`plateletCountRange` keeps the two numbers rendered in the range string. -/
structure Plan where
  totalInjectionVolume : ℚ
  totalPrpExtractedML : ℚ
  totalPppNeededML : ℚ
  tubesNeeded : ℤ
  extractVolumePerTube : ℚ
  finalMixtureConcentration : ℚ
  totalPlatelets : ℚ
  concentrationStatus : RangeStatus
  plateletCountStatus : RangeStatus
  plateletCountRange : ℚ × ℚ
  recoveredPlateletsPerUL : ℚ
  activatedPlateletsPerUL : ℚ
  inactivatedPlateletsPerUL : ℚ
  effectiveRecoveryRate : ℚ
deriving Repr, DecidableEq

/-- One body evaluation of `getTreatmentPlan` at a fixed iteration, without the
retry logic: the plan the source returns when no retry fires (calculate.js
156-190). -/
def planOnce (zone : ZoneConfig) (base : BaseConcentrations) (iteration : ℕ)
    (useDoubleSpin : Bool) : Plan :=
  { totalInjectionVolume := totalInjectionVolume zone base iteration useDoubleSpin
    totalPrpExtractedML := totalPrpExtractedML zone base iteration useDoubleSpin
    totalPppNeededML := totalPppNeededML zone base iteration useDoubleSpin
    tubesNeeded := tubesNeeded zone base iteration useDoubleSpin
    extractVolumePerTube :=
      if tubesNeeded zone base iteration useDoubleSpin > 0 then
        totalInjectionVolume zone base iteration useDoubleSpin /
          (tubesNeeded zone base iteration useDoubleSpin : ℚ)
      else 0
    finalMixtureConcentration := finalMixtureConcentration zone base iteration useDoubleSpin
    totalPlatelets := totalPlatelets zone base iteration useDoubleSpin
    concentrationStatus := concentrationStatus zone base iteration useDoubleSpin
    plateletCountStatus := plateletCountStatus zone base iteration useDoubleSpin
    plateletCountRange :=
      (round1 (zone.minPlatelets / 1000000000), round1 (zone.maxPlatelets / 1000000000))
    recoveredPlateletsPerUL := recoveredPlateletsPerUL base useDoubleSpin
    activatedPlateletsPerUL := activatedPlateletsPerUL base useDoubleSpin
    inactivatedPlateletsPerUL := inactivatedPlateletsPerUL base useDoubleSpin
    effectiveRecoveryRate := effectiveRecoveryRate base useDoubleSpin }

/-- The retry recursion of `getTreatmentPlan` (calculate.js 125-154), returning
the plan together with the number of invocations performed.  The recursive
calls at lines 135, 140 and 151 pass no fourth argument, so they run with
`useDoubleSpin = false`; this is reproduced faithfully.  The structural `fuel`
argument only realises the recursion: 4 units never run out because the guard
`iteration < 3` bounds the call depth (see `getTreatmentPlanAux_fuel_irrelevant`
and `planDepth_le`). -/
def getTreatmentPlanAux (zone : ZoneConfig) (base : BaseConcentrations) :
    ℕ → ℕ → Bool → Plan × ℕ
  | 0, iteration, useDoubleSpin => (planOnce zone base iteration useDoubleSpin, 1)
  | fuel + 1, iteration, useDoubleSpin =>
    if iteration < 3 then
      if finalMixtureConcentration zone base iteration useDoubleSpin <
          OPTIMAL_MIN_PLATELETS_PER_UL then
        ((getTreatmentPlanAux zone base fuel (iteration + 1) false).1,
          (getTreatmentPlanAux zone base fuel (iteration + 1) false).2 + 1)
      else if totalPlatelets zone base iteration useDoubleSpin < zone.minPlatelets then
        ((getTreatmentPlanAux zone base fuel (iteration + 1) false).1,
          (getTreatmentPlanAux zone base fuel (iteration + 1) false).2 + 1)
      else if totalPlatelets zone base iteration useDoubleSpin > zone.maxPlatelets ∧
          tubesNeeded zone base iteration useDoubleSpin > 1 then
        if ((tubesNeeded zone base iteration useDoubleSpin - 1 : ℤ) : ℚ) *
            effectivePrpConcentration base useDoubleSpin * 1000 ≥ zone.minPlatelets then
          ((getTreatmentPlanAux zone base fuel (iteration + 1) false).1,
            (getTreatmentPlanAux zone base fuel (iteration + 1) false).2 + 1)
        else (planOnce zone base iteration useDoubleSpin, 1)
      else (planOnce zone base iteration useDoubleSpin, 1)
    else (planOnce zone base iteration useDoubleSpin, 1)

/-- `getTreatmentPlan(zone, baseConcentrations, iteration, useDoubleSpin)`. -/
def getTreatmentPlan (zone : ZoneConfig) (base : BaseConcentrations) (iteration : ℕ)
    (useDoubleSpin : Bool) : Plan :=
  (getTreatmentPlanAux zone base 4 iteration useDoubleSpin).1

/-- Number of `getTreatmentPlan` invocations performed (1 = no retry). -/
def planDepth (zone : ZoneConfig) (base : BaseConcentrations) (iteration : ℕ)
    (useDoubleSpin : Bool) : ℕ :=
  (getTreatmentPlanAux zone base 4 iteration useDoubleSpin).2

/-! ### The request entry point, `calculatePRPDosage` (calculate.js 193-331) -/

/-- The JSON request body: absent optional fields are `none`
(§3 PatientInput of the specification; calculate.js 195-200). -/
structure PatientInput where
  thrombocytes : Option ℚ := none
  prp_yield : Option ℚ := none
  prp_concentration : Option ℚ := none
  ppp_concentration : Option ℚ := none
  recovery_rate : Option ℚ := none
  activation_rate : Option ℚ := none
deriving Repr, DecidableEq

/-- `parseFloat(inputData.x || d)` for a numeric field: an absent field takes
the default, and so does an explicit 0 because 0 is falsy in JavaScript. -/
def jsOr (v : Option ℚ) (d : ℚ) : ℚ :=
  match v with
  | none => d
  | some x => if x = 0 then d else x

/-- The `type` of the concentration feedback (calculate.js 296-306). -/
inductive FeedbackType
  | warning
  | info
  | success
deriving Repr, DecidableEq

/-- The concentration feedback: its `type` and the concentration in millions
per µL embedded (to two decimals) in the message text. -/
structure Feedback where
  type : FeedbackType
  concentrationMillionsShown : ℚ
deriving Repr, DecidableEq

/-- Feedback generation (calculate.js 293-306), a function of the pre-dilution
`finalPrpConcentrationPerUL` alone. -/
def concentrationFeedback (finalPrpConcentrationPerUL : ℚ) : Feedback :=
  if finalPrpConcentrationPerUL < OPTIMAL_MIN_PLATELETS_PER_UL then
    { type := .warning, concentrationMillionsShown := round2 (finalPrpConcentrationPerUL / 1000000) }
  else if finalPrpConcentrationPerUL > OPTIMAL_MAX_PLATELETS_PER_UL then
    { type := .info, concentrationMillionsShown := round2 (finalPrpConcentrationPerUL / 1000000) }
  else
    { type := .success, concentrationMillionsShown := round2 (finalPrpConcentrationPerUL / 1000000) }

/-- The double-spin decision, computed per request from the initial single-spin
PRP concentration (calculate.js 245-247). -/
def useDoubleSpinDecision (base : BaseConcentrations) : Bool :=
  DOUBLE_SPIN_CONFIG.enabled &&
    decide (base.finalPrpConcentrationPerUL < DOUBLE_SPIN_CONFIG.minConcentrationThreshold)

/-- One entry of the `zones` object of the response (calculate.js 265-290). -/
structure ZoneResult where
  zone_name : String
  tubes_needed : ℤ
  final_tubes_needed : ℤ
  total_injection_volume_ml : ℚ
  total_prp_volume_ml : ℚ
  total_ppp_needed_ml : ℚ
  extract_volume_per_tube_ml : ℚ
  target_platelets : ℚ
  min_platelets : ℚ
  max_platelets : ℚ
  total_platelets_extracted : ℤ
  platelet_count_range : ℚ × ℚ
  min_volume_ml : ℚ
  final_injection_concentration_per_ul : ℤ
  final_injection_concentration_millions : ℚ
  concentration_status : RangeStatus
  platelet_count_status : RangeStatus
  double_spin_used : Bool
  initial_concentration : ℚ
  recovered_platelets_per_ul : ℤ
  activated_platelets_per_ul : ℤ
  inactivated_platelets_per_ul : ℤ
  effective_recovery_rate : ℚ
deriving Repr, DecidableEq

/-- The per-zone block of `calculatePRPDosage` (calculate.js 241-290).  When
double spin is selected and the tube count of the plan is odd, the source mutates
`plan.tubesNeeded` but immediately recomputes the whole plan with the same
arguments (line 259), discarding the mutation; the recomputation is kept as
written. -/
def zoneResult (zone : ZoneConfig) (base : BaseConcentrations) (recoveryRate : ℚ) :
    ZoneResult :=
  let useDoubleSpin := useDoubleSpinDecision base
  let plan :=
    if useDoubleSpin then
      let plan0 := getTreatmentPlan zone base 0 true
      if plan0.tubesNeeded % 2 ≠ 0 then getTreatmentPlan zone base 0 true else plan0
    else getTreatmentPlan zone base 0 false
  { zone_name := zone.name
    tubes_needed := if useDoubleSpin then plan.tubesNeeded * 2 else plan.tubesNeeded
    final_tubes_needed := plan.tubesNeeded
    total_injection_volume_ml := round1 plan.totalInjectionVolume
    total_prp_volume_ml := round1 plan.totalPrpExtractedML
    total_ppp_needed_ml := round1 plan.totalPppNeededML
    extract_volume_per_tube_ml := round1 plan.extractVolumePerTube
    target_platelets := zone.targetPlatelets
    min_platelets := zone.minPlatelets
    max_platelets := zone.maxPlatelets
    total_platelets_extracted := round plan.totalPlatelets
    platelet_count_range := plan.plateletCountRange
    min_volume_ml := zone.minVolume
    final_injection_concentration_per_ul := round plan.finalMixtureConcentration
    final_injection_concentration_millions := round2 (plan.finalMixtureConcentration / 1000000)
    concentration_status := plan.concentrationStatus
    platelet_count_status := plan.plateletCountStatus
    double_spin_used := useDoubleSpin
    initial_concentration := round2 (base.finalPrpConcentrationPerUL / 1000000)
    recovered_platelets_per_ul := round plan.recoveredPlateletsPerUL
    activated_platelets_per_ul := round plan.activatedPlateletsPerUL
    inactivated_platelets_per_ul := round plan.inactivatedPlateletsPerUL
    effective_recovery_rate :=
      if plan.effectiveRecoveryRate = 0 then recoveryRate else plan.effectiveRecoveryRate }

/-- `input_parameters` of the response (calculate.js 309-316). -/
structure InputParameters where
  thrombocytes_gl : ℚ
  prp_yield_ml : ℚ
  prp_concentration_x : ℚ
  ppp_concentration_x : ℚ
  recovery_rate_percent : ℚ
  activation_rate_percent : ℚ
deriving Repr, DecidableEq

/-- `calculated_concentrations` of the response (calculate.js 317-324). -/
structure CalculatedConcentrations where
  baseline_platelets_per_ul : ℚ
  final_prp_concentration_per_ul : ℚ
  final_prp_concentration_millions : ℚ
  final_ppp_concentration_per_ul : ℚ
  platelets_per_ml_of_prp : ℚ
deriving Repr, DecidableEq

/-- The full successful result of `calculatePRPDosage` (calculate.js 308-330). -/
structure CalcOutput where
  input_parameters : InputParameters
  calculated_concentrations : CalculatedConcentrations
  concentration_feedback : Feedback
  temporal_crown_zone : ZoneResult
  full_scalp_zone : ZoneResult
deriving Repr, DecidableEq

/-- `calculatePRPDosage(inputData)` (calculate.js 193-331): default filling,
validation (each `throw` becomes `Except.error` with the source message),
then the per-zone plans and the feedback. -/
def calculatePRPDosage (inputData : PatientInput) : Except String CalcOutput :=
  let patientThrombocytesGL := jsOr inputData.thrombocytes 0
  let prpYieldPerTube := jsOr inputData.prp_yield 1.0
  let prpConcentrationX := jsOr inputData.prp_concentration 4.0
  let pppConcentrationX := jsOr inputData.ppp_concentration 0.5
  let recoveryRate := jsOr inputData.recovery_rate 70.0
  let activationRate := jsOr inputData.activation_rate 20.0
  if patientThrombocytesGL ≤ 0 then
    .error "Patient thrombocytes must be greater than 0"
  else if prpYieldPerTube ≤ 0 then
    .error "PRP yield per tube must be greater than 0"
  else if prpConcentrationX ≤ 0 then
    .error "PRP concentration must be greater than 0"
  else if recoveryRate < 0 ∨ recoveryRate > 100 then
    .error "Recovery rate must be between 0 and 100"
  else if activationRate < 0 ∨ activationRate > 100 then
    .error "Activation rate must be between 0 and 100"
  else
    let base := mkBaseConcentrations patientThrombocytesGL prpYieldPerTube prpConcentrationX
      pppConcentrationX recoveryRate activationRate
    .ok
      { input_parameters :=
          { thrombocytes_gl := patientThrombocytesGL
            prp_yield_ml := prpYieldPerTube
            prp_concentration_x := prpConcentrationX
            ppp_concentration_x := pppConcentrationX
            recovery_rate_percent := recoveryRate
            activation_rate_percent := activationRate }
        calculated_concentrations :=
          { baseline_platelets_per_ul := base.baselinePlateletsPerUL
            final_prp_concentration_per_ul := base.finalPrpConcentrationPerUL
            final_prp_concentration_millions := round2 (base.finalPrpConcentrationPerUL / 1000000)
            final_ppp_concentration_per_ul := base.finalPppConcentrationPerUL
            platelets_per_ml_of_prp := base.plateletsPerMLofPRP }
        concentration_feedback := concentrationFeedback base.finalPrpConcentrationPerUL
        temporal_crown_zone := zoneResult temporal_crown base recoveryRate
        full_scalp_zone := zoneResult full_scalp base recoveryRate }

/-- Whether a calculation succeeded (no validation error thrown). -/
def calcSucceeds (r : Except String CalcOutput) : Bool :=
  match r with
  | .ok _ => true
  | .error _ => false

/-! ### Helper lemmas about the planner step -/

/-- Ceiling as a negated floor, used to evaluate `Math.ceil` on concrete
rationals. -/
theorem Int_ceil_eq_neg_floor_neg (a : ℚ) : ⌈a⌉ = -⌊-a⌋ := by
  rw [Int.floor_neg, neg_neg]

theorem effectivePrpYield_pos (base : BaseConcentrations) (useDoubleSpin : Bool)
    (hy : 0 < base.prpYieldPerTube) : 0 < effectivePrpYield base useDoubleSpin := by
  unfold effectivePrpYield
  split
  · norm_num [DOUBLE_SPIN_CONFIG]
  · exact hy

theorem one_le_tubesNeeded (zone : ZoneConfig) (base : BaseConcentrations) (iteration : ℕ)
    (useDoubleSpin : Bool) : 1 ≤ tubesNeeded zone base iteration useDoubleSpin := by
  unfold tubesNeeded
  exact le_max_left _ _

theorem totalPrpExtractedML_pos (zone : ZoneConfig) (base : BaseConcentrations) (iteration : ℕ)
    (useDoubleSpin : Bool) (hy : 0 < base.prpYieldPerTube) :
    0 < totalPrpExtractedML zone base iteration useDoubleSpin := by
  unfold totalPrpExtractedML
  have h1 : (1 : ℚ) ≤ (tubesNeeded zone base iteration useDoubleSpin : ℚ) := by
    exact_mod_cast one_le_tubesNeeded zone base iteration useDoubleSpin
  have h2 := effectivePrpYield_pos base useDoubleSpin hy
  nlinarith

theorem concentrationPppML_nonneg (zone : ZoneConfig) (base : BaseConcentrations) (iteration : ℕ)
    (useDoubleSpin : Bool) (hy : 0 < base.prpYieldPerTube) :
    0 ≤ concentrationPppML zone base iteration useDoubleSpin := by
  unfold concentrationPppML
  split_ifs with h1 h2 h3
  · have hp := totalPrpExtractedML_pos zone base iteration useDoubleSpin hy
    have he : 0 ≤ effectivePrpConcentration base useDoubleSpin -
        OPTIMAL_MAX_PLATELETS_PER_UL := by linarith
    exact div_nonneg (mul_nonneg hp.le he) h3.le
  · exact le_rfl
  · exact le_rfl
  · exact le_rfl

/-- The two branches of the source `testConcentration` comparison assign the
same value, so the volume top-up collapses to an unconditional shortfall. -/
theorem volumeTopUpPppML_eq (zone : ZoneConfig) (base : BaseConcentrations) (iteration : ℕ)
    (useDoubleSpin : Bool) :
    volumeTopUpPppML zone base iteration useDoubleSpin =
      if totalPrpExtractedML zone base iteration useDoubleSpin ≥ zone.minVolume then 0
      else zone.minVolume - totalPrpExtractedML zone base iteration useDoubleSpin := by
  unfold volumeTopUpPppML baseVolumeTopUp
  split_ifs <;> rfl

theorem volumeTopUpPppML_nonneg (zone : ZoneConfig) (base : BaseConcentrations) (iteration : ℕ)
    (useDoubleSpin : Bool) : 0 ≤ volumeTopUpPppML zone base iteration useDoubleSpin := by
  rw [volumeTopUpPppML_eq]
  split_ifs with h
  · exact le_rfl
  · have := not_le.mp h
    linarith

theorem totalPppNeededML_nonneg (zone : ZoneConfig) (base : BaseConcentrations) (iteration : ℕ)
    (useDoubleSpin : Bool) (hy : 0 < base.prpYieldPerTube) :
    0 ≤ totalPppNeededML zone base iteration useDoubleSpin := by
  unfold totalPppNeededML
  exact add_nonneg (concentrationPppML_nonneg zone base iteration useDoubleSpin hy)
    (volumeTopUpPppML_nonneg zone base iteration useDoubleSpin)

theorem minVolume_le_totalInjectionVolume (zone : ZoneConfig) (base : BaseConcentrations)
    (iteration : ℕ) (useDoubleSpin : Bool) (hy : 0 < base.prpYieldPerTube) :
    zone.minVolume ≤ totalInjectionVolume zone base iteration useDoubleSpin := by
  unfold totalInjectionVolume totalPppNeededML
  have hc := concentrationPppML_nonneg zone base iteration useDoubleSpin hy
  rcases le_or_lt zone.minVolume (totalPrpExtractedML zone base iteration useDoubleSpin) with h | h
  · have hv := volumeTopUpPppML_nonneg zone base iteration useDoubleSpin
    linarith
  · rw [volumeTopUpPppML_eq, if_neg (not_le.mpr h)]
    linarith

/-! ### Helper lemmas about the retry recursion -/

/-- Every result of the retry recursion is the plan of some single body
evaluation. -/
theorem getTreatmentPlanAux_fst (zone : ZoneConfig) (base : BaseConcentrations) :
    ∀ (fuel iteration : ℕ) (useDoubleSpin : Bool),
      ∃ (j : ℕ) (d : Bool),
        (getTreatmentPlanAux zone base fuel iteration useDoubleSpin).1 = planOnce zone base j d := by
  intro fuel
  induction fuel with
  | zero => intro iteration ds; exact ⟨iteration, ds, rfl⟩
  | succ f ih =>
    intro iteration ds
    simp only [getTreatmentPlanAux]
    split_ifs with h1 h2 h3 h4 h5
    · exact ih (iteration + 1) false
    · exact ih (iteration + 1) false
    · exact ih (iteration + 1) false
    · exact ⟨iteration, ds, rfl⟩
    · exact ⟨iteration, ds, rfl⟩
    · exact ⟨iteration, ds, rfl⟩

/-- The invocation count of the retry recursion is bounded by the distance of
the iteration counter to its cap. -/
theorem getTreatmentPlanAux_snd_le (zone : ZoneConfig) (base : BaseConcentrations) :
    ∀ (fuel iteration : ℕ) (useDoubleSpin : Bool),
      (getTreatmentPlanAux zone base fuel iteration useDoubleSpin).2 ≤ 1 + (3 - iteration) := by
  intro fuel
  induction fuel with
  | zero => intro iteration ds; simp [getTreatmentPlanAux]
  | succ f ih =>
    intro iteration ds
    simp only [getTreatmentPlanAux]
    split_ifs with h1 h2 h3 h4 h5
    · show (getTreatmentPlanAux zone base f (iteration + 1) false).2 + 1 ≤ 1 + (3 - iteration)
      have := ih (iteration + 1) false
      omega
    · show (getTreatmentPlanAux zone base f (iteration + 1) false).2 + 1 ≤ 1 + (3 - iteration)
      have := ih (iteration + 1) false
      omega
    · show (getTreatmentPlanAux zone base f (iteration + 1) false).2 + 1 ≤ 1 + (3 - iteration)
      have := ih (iteration + 1) false
      omega
    · show 1 ≤ 1 + (3 - iteration); omega
    · show 1 ≤ 1 + (3 - iteration); omega
    · show 1 ≤ 1 + (3 - iteration); omega

/-- Once the iteration counter reaches the cap 3, no retry happens. -/
theorem getTreatmentPlanAux_snd_eq_one (zone : ZoneConfig) (base : BaseConcentrations)
    (fuel iteration : ℕ) (useDoubleSpin : Bool) (h : 3 ≤ iteration) :
    (getTreatmentPlanAux zone base fuel iteration useDoubleSpin).2 = 1 := by
  cases fuel with
  | zero => rfl
  | succ f =>
    simp only [getTreatmentPlanAux]
    rw [if_neg (by omega)]

/-- The fuel parameter is irrelevant once it exceeds the remaining iteration
budget `3 - iteration`: the published fuel of 4 therefore realises exactly the
source recursion, whose depth the guard `iteration < 3` bounds. -/
theorem getTreatmentPlanAux_fuel_irrelevant (zone : ZoneConfig) (base : BaseConcentrations) :
    ∀ (f g iteration : ℕ) (useDoubleSpin : Bool), 3 - iteration < f → 3 - iteration < g →
      getTreatmentPlanAux zone base f iteration useDoubleSpin =
        getTreatmentPlanAux zone base g iteration useDoubleSpin := by
  intro f
  induction f with
  | zero => intro g iteration ds hf hg; omega
  | succ f ih =>
    intro g iteration ds hf hg
    cases g with
    | zero => omega
    | succ g =>
      simp only [getTreatmentPlanAux]
      split_ifs with h1 h2 h3 h4 h5
      · rw [ih g (iteration + 1) false (by omega) (by omega)]
      · rw [ih g (iteration + 1) false (by omega) (by omega)]
      · rw [ih g (iteration + 1) false (by omega) (by omega)]
      · rfl
      · rfl
      · rfl

/-! ### Concrete inputs used by witnesses and counterexamples -/

/-- The `baseConcentrations` produced by the documented example request
(thrombocytes 200 with all defaults). -/
def baseA : BaseConcentrations := mkBaseConcentrations 200 1.0 4.0 0.5 70.0 20.0

/-! ### The claims -/

/-- Claim C1: for every valid input and both zones, the returned plan satisfies
`totalInjectionVolume ≥ zone.minVolume`, and
`totalInjectionVolume = totalPrpExtractedML + totalPppNeededML` holds by
construction. -/
theorem getTreatmentPlan_volume_floor (zone : ZoneConfig) (base : BaseConcentrations)
    (iteration : ℕ) (useDoubleSpin : Bool) (hy : 0 < base.prpYieldPerTube) :
    zone.minVolume ≤ (getTreatmentPlan zone base iteration useDoubleSpin).totalInjectionVolume ∧
    (getTreatmentPlan zone base iteration useDoubleSpin).totalInjectionVolume =
      (getTreatmentPlan zone base iteration useDoubleSpin).totalPrpExtractedML +
        (getTreatmentPlan zone base iteration useDoubleSpin).totalPppNeededML := by
  obtain ⟨j, d, h⟩ := getTreatmentPlanAux_fst zone base 4 iteration useDoubleSpin
  unfold getTreatmentPlan
  rw [h]
  simp only [planOnce]
  exact ⟨minVolume_le_totalInjectionVolume zone base j d hy, rfl⟩

/-- Witness for C1 at the documented example request and the Temporal/Crown
zone. -/
theorem getTreatmentPlan_volume_floor_witness :
    (0 : ℚ) < baseA.prpYieldPerTube ∧
    (temporal_crown.minVolume ≤
        (getTreatmentPlan temporal_crown baseA 0 false).totalInjectionVolume ∧
      (getTreatmentPlan temporal_crown baseA 0 false).totalInjectionVolume =
        (getTreatmentPlan temporal_crown baseA 0 false).totalPrpExtractedML +
          (getTreatmentPlan temporal_crown baseA 0 false).totalPppNeededML) :=
  ⟨by norm_num [baseA, mkBaseConcentrations],
    getTreatmentPlan_volume_floor temporal_crown baseA 0 false
      (by norm_num [baseA, mkBaseConcentrations])⟩

/-- Claim C8: for every valid input and both zones, the returned plan satisfies
`totalPrpExtractedML ≥ 0`, `totalPppNeededML ≥ 0` (with both the dilution and
the top-up PPP components non-negative at every iteration) and
`tubesNeeded ≥ 1`. -/
theorem getTreatmentPlan_nonneg (zone : ZoneConfig) (base : BaseConcentrations)
    (iteration : ℕ) (useDoubleSpin : Bool) (hy : 0 < base.prpYieldPerTube) :
    0 ≤ (getTreatmentPlan zone base iteration useDoubleSpin).totalPrpExtractedML ∧
    0 ≤ (getTreatmentPlan zone base iteration useDoubleSpin).totalPppNeededML ∧
    1 ≤ (getTreatmentPlan zone base iteration useDoubleSpin).tubesNeeded ∧
    0 ≤ concentrationPppML zone base iteration useDoubleSpin ∧
    0 ≤ volumeTopUpPppML zone base iteration useDoubleSpin := by
  obtain ⟨j, d, h⟩ := getTreatmentPlanAux_fst zone base 4 iteration useDoubleSpin
  unfold getTreatmentPlan
  rw [h]
  simp only [planOnce]
  refine ⟨(totalPrpExtractedML_pos zone base j d hy).le,
    totalPppNeededML_nonneg zone base j d hy, one_le_tubesNeeded zone base j d,
    concentrationPppML_nonneg zone base iteration useDoubleSpin hy,
    volumeTopUpPppML_nonneg zone base iteration useDoubleSpin⟩

/-- Witness for C8 at the documented example request and the Full Scalp zone. -/
theorem getTreatmentPlan_nonneg_witness :
    (0 : ℚ) < baseA.prpYieldPerTube ∧
    (0 ≤ (getTreatmentPlan full_scalp baseA 0 false).totalPrpExtractedML ∧
      0 ≤ (getTreatmentPlan full_scalp baseA 0 false).totalPppNeededML ∧
      1 ≤ (getTreatmentPlan full_scalp baseA 0 false).tubesNeeded ∧
      0 ≤ concentrationPppML full_scalp baseA 0 false ∧
      0 ≤ volumeTopUpPppML full_scalp baseA 0 false) :=
  ⟨by norm_num [baseA, mkBaseConcentrations],
    getTreatmentPlan_nonneg full_scalp baseA 0 false
      (by norm_num [baseA, mkBaseConcentrations])⟩

/-- Claim C4: the zone-plan search always terminates with a complete plan (the
result is always one body evaluation of the planner), the retry recursion
retries only while `iteration < 3` (from iteration 3 on, exactly one
invocation happens), and the invocation depth never exceeds 4. -/
theorem getTreatmentPlan_depth_le_four (zone : ZoneConfig) (base : BaseConcentrations)
    (iteration : ℕ) (useDoubleSpin : Bool) :
    planDepth zone base iteration useDoubleSpin ≤ 4 ∧
    (3 ≤ iteration → planDepth zone base iteration useDoubleSpin = 1) ∧
    ∃ (j : ℕ) (d : Bool),
      getTreatmentPlan zone base iteration useDoubleSpin = planOnce zone base j d := by
  refine ⟨?_, fun h => getTreatmentPlanAux_snd_eq_one zone base 4 iteration useDoubleSpin h, ?_⟩
  · have := getTreatmentPlanAux_snd_le zone base 4 iteration useDoubleSpin
    unfold planDepth
    omega
  · exact getTreatmentPlanAux_fst zone base 4 iteration useDoubleSpin

/-- Witness for C4: concrete depth bound at iteration 0, and a single
invocation when entered at the iteration cap. -/
theorem getTreatmentPlan_depth_le_four_witness :
    planDepth temporal_crown baseA 0 false ≤ 4 ∧
    planDepth temporal_crown baseA 3 false = 1 :=
  ⟨(getTreatmentPlan_depth_le_four temporal_crown baseA 0 false).1,
    (getTreatmentPlan_depth_le_four temporal_crown baseA 3 false).2.1 (by norm_num)⟩

/-- Claim C9: holding every other input fixed, a larger `thrombocytes` value
never decreases the computed `finalPrpConcentrationPerUL`
(`thrombocytes × 1000 × prp_concentration`). -/
theorem finalPrpConcentrationPerUL_monotone (t1 t2 y c p r a : ℚ) (hc : 0 < c) (ht : t1 < t2) :
    (mkBaseConcentrations t1 y c p r a).finalPrpConcentrationPerUL ≤
      (mkBaseConcentrations t2 y c p r a).finalPrpConcentrationPerUL := by
  simp only [mkBaseConcentrations]
  nlinarith

/-- Witness for C9 at thrombocytes 100 versus 200 with the default
multiplier. -/
theorem finalPrpConcentrationPerUL_monotone_witness :
    (0 : ℚ) < 4 ∧ (100 : ℚ) < 200 ∧
    (mkBaseConcentrations 100 1 4 0.5 70 20).finalPrpConcentrationPerUL ≤
      (mkBaseConcentrations 200 1 4 0.5 70 20).finalPrpConcentrationPerUL :=
  ⟨by norm_num, by norm_num,
    finalPrpConcentrationPerUL_monotone 100 200 1 4 0.5 70 20 (by norm_num) (by norm_num)⟩

/-- Claim C7: the feedback depends only on the pre-dilution
`finalPrpConcentrationPerUL`: strictly below the optimal minimum gives
`warning`, strictly above the optimal maximum gives `info`, everything in
between (boundaries included) gives `success`, and the message always embeds
the concentration in millions per µL rounded to two decimals. -/
theorem concentrationFeedback_cases (c : ℚ) :
    (c < OPTIMAL_MIN_PLATELETS_PER_UL → (concentrationFeedback c).type = .warning) ∧
    (c > OPTIMAL_MAX_PLATELETS_PER_UL → (concentrationFeedback c).type = .info) ∧
    (OPTIMAL_MIN_PLATELETS_PER_UL ≤ c → c ≤ OPTIMAL_MAX_PLATELETS_PER_UL →
      (concentrationFeedback c).type = .success) ∧
    (concentrationFeedback c).concentrationMillionsShown = round2 (c / 1000000) := by
  unfold concentrationFeedback OPTIMAL_MIN_PLATELETS_PER_UL OPTIMAL_MAX_PLATELETS_PER_UL
  refine ⟨fun h => ?_, fun h => ?_, fun h1 h2 => ?_, ?_⟩ <;> split_ifs <;>
    first
      | rfl
      | linarith

/-- Witness for C7 at one input in each of the three bands. -/
theorem concentrationFeedback_cases_witness :
    (concentrationFeedback 400000).type = .warning ∧
    (concentrationFeedback 3500000).type = .info ∧
    (concentrationFeedback 1400000).type = .success :=
  ⟨(concentrationFeedback_cases 400000).1
      (by norm_num [OPTIMAL_MIN_PLATELETS_PER_UL]),
    (concentrationFeedback_cases 3500000).2.1
      (by norm_num [OPTIMAL_MAX_PLATELETS_PER_UL]),
    (concentrationFeedback_cases 1400000).2.2.1
      (by norm_num [OPTIMAL_MIN_PLATELETS_PER_UL])
      (by norm_num [OPTIMAL_MAX_PLATELETS_PER_UL])⟩

/-- Inputs (thrombocytes 325, prp_yield 0.7, prp_concentration 4,
ppp_concentration 0.1, recovery 100, activation 20) whose first planner pass
falls short of the minimum volume while the blended test concentration is
below the optimal minimum. -/
def lowBlendBase : BaseConcentrations := mkBaseConcentrations 325 0.7 4.0 0.1 100.0 20.0

/-- Counterexample to claim C3: at `lowBlendBase` and iteration 0 of the
Temporal/Crown zone, the extracted PRP (1.4 mL) is below the 2 mL minimum
volume and the blended test concentration (919750/µL) is below
`OPTIMAL_MIN_PLATELETS_PER_UL`, yet the computed volume top-up is the full
shortfall 0.6 mL, not the 0 mL the claim asserts. -/
theorem volumeTopUp_low_blend_counterexample :
    totalPrpExtractedML temporal_crown lowBlendBase 0 false < temporal_crown.minVolume ∧
    testConcentration temporal_crown lowBlendBase 0 false < OPTIMAL_MIN_PLATELETS_PER_UL ∧
    volumeTopUpPppML temporal_crown lowBlendBase 0 false = 3 / 5 ∧
    ¬ volumeTopUpPppML temporal_crown lowBlendBase 0 false = 0 := by
  have hprp : totalPrpExtractedML temporal_crown lowBlendBase 0 false = 7 / 5 := by
    norm_num [totalPrpExtractedML, tubesNeeded, optimalPrpVolumeML, adjustedMinPlatelets,
      recoveryFactor, effectiveRecoveryRate, effectivePrpConcentration, effectivePrpYield,
      DOUBLE_SPIN_CONFIG, lowBlendBase, mkBaseConcentrations, temporal_crown,
      Int_ceil_eq_neg_floor_neg]
  have htest : testConcentration temporal_crown lowBlendBase 0 false = 919750 := by
    unfold testConcentration baseVolumeTopUp
    rw [hprp]
    norm_num [effectivePrpConcentration, DOUBLE_SPIN_CONFIG, lowBlendBase,
      mkBaseConcentrations, temporal_crown]
  have htop : volumeTopUpPppML temporal_crown lowBlendBase 0 false = 3 / 5 := by
    rw [volumeTopUpPppML_eq, hprp]
    norm_num [temporal_crown]
  refine ⟨?_, ?_, htop, ?_⟩
  · rw [hprp]; norm_num [temporal_crown]
  · rw [htest]; norm_num [OPTIMAL_MIN_PLATELETS_PER_UL]
  · rw [htop]; norm_num

/-- Claim C3 as amended: whenever the extracted PRP falls short of the zone
minimum volume, the algorithm adds the full top-up
`zone.minVolume − totalPrpExtractedML` unconditionally — the blended
concentration test has no effect, because both of its branches assign the same
value (the shortfall is later addressed only by the retry on a too-low final
concentration). -/
theorem volumeTopUp_unconditional (zone : ZoneConfig) (base : BaseConcentrations)
    (iteration : ℕ) (useDoubleSpin : Bool)
    (h : totalPrpExtractedML zone base iteration useDoubleSpin < zone.minVolume) :
    volumeTopUpPppML zone base iteration useDoubleSpin =
      zone.minVolume - totalPrpExtractedML zone base iteration useDoubleSpin := by
  rw [volumeTopUpPppML_eq, if_neg (not_le.mpr h)]

/-- Witness for the amended C3 at `lowBlendBase`. -/
theorem volumeTopUp_unconditional_witness :
    totalPrpExtractedML temporal_crown lowBlendBase 0 false < temporal_crown.minVolume ∧
    volumeTopUpPppML temporal_crown lowBlendBase 0 false =
      temporal_crown.minVolume - totalPrpExtractedML temporal_crown lowBlendBase 0 false := by
  have hprp : totalPrpExtractedML temporal_crown lowBlendBase 0 false = 7 / 5 := by
    norm_num [totalPrpExtractedML, tubesNeeded, optimalPrpVolumeML, adjustedMinPlatelets,
      recoveryFactor, effectiveRecoveryRate, effectivePrpConcentration, effectivePrpYield,
      DOUBLE_SPIN_CONFIG, lowBlendBase, mkBaseConcentrations, temporal_crown,
      Int_ceil_eq_neg_floor_neg]
  have hlt : totalPrpExtractedML temporal_crown lowBlendBase 0 false < temporal_crown.minVolume := by
    rw [hprp]; norm_num [temporal_crown]
  exact ⟨hlt, volumeTopUp_unconditional temporal_crown lowBlendBase 0 false hlt⟩

/-- The `baseConcentrations` of Scenario C of the specification
(thrombocytes 100, prp_concentration 4, all other fields defaulted): the
initial concentration 400000/µL is below the double-spin threshold. -/
def scenarioC : BaseConcentrations := mkBaseConcentrations 100 1.0 4.0 0.5 70.0 20.0

/-- Claim C2 evaluated at its own Scenario C: double spin is selected and
reported (`double_spin_used = true`), but the plan actually returned for the
Temporal/Crown zone is the single-spin body evaluation at iteration 3 — the
first retry (calculate.js 135) passes no `useDoubleSpin` argument, so the
final plan uses recovery rate 70 (not the double-spin 70 × 0.8 = 56) and
10 tubes × 1.0 mL single-spin yield (not the 2.0 mL double-spin yield). -/
theorem scenarioC_doubleSpin_dropped :
    useDoubleSpinDecision scenarioC = true ∧
    getTreatmentPlan temporal_crown scenarioC 0 true = planOnce temporal_crown scenarioC 3 false ∧
    (getTreatmentPlan temporal_crown scenarioC 0 true).effectiveRecoveryRate = 70 ∧
    (getTreatmentPlan temporal_crown scenarioC 0 true).tubesNeeded = 10 ∧
    (getTreatmentPlan temporal_crown scenarioC 0 true).totalPrpExtractedML = 10 ∧
    (zoneResult temporal_crown scenarioC 70).double_spin_used = true := by
  have hud : useDoubleSpinDecision scenarioC = true := by
    simp only [useDoubleSpinDecision, DOUBLE_SPIN_CONFIG, scenarioC, mkBaseConcentrations,
      Bool.true_and, decide_eq_true_eq]
    norm_num
  have e0 : finalMixtureConcentration temporal_crown scenarioC 0 true = 700000 := by
    norm_num [finalMixtureConcentration, totalInjectionVolume, totalPlatelets, totalPppNeededML,
      concentrationPppML, volumeTopUpPppML, baseVolumeTopUp, testConcentration,
      totalPrpExtractedML, tubesNeeded, optimalPrpVolumeML, adjustedMinPlatelets,
      recoveryFactor, effectiveRecoveryRate, effectivePrpConcentration, effectivePrpYield,
      DOUBLE_SPIN_CONFIG, scenarioC, mkBaseConcentrations, temporal_crown,
      OPTIMAL_MIN_PLATELETS_PER_UL, OPTIMAL_MAX_PLATELETS_PER_UL, Int_ceil_eq_neg_floor_neg]
  have e1 : finalMixtureConcentration temporal_crown scenarioC 1 false = 400000 := by
    norm_num [finalMixtureConcentration, totalInjectionVolume, totalPlatelets, totalPppNeededML,
      concentrationPppML, volumeTopUpPppML, baseVolumeTopUp, testConcentration,
      totalPrpExtractedML, tubesNeeded, optimalPrpVolumeML, adjustedMinPlatelets,
      recoveryFactor, effectiveRecoveryRate, effectivePrpConcentration, effectivePrpYield,
      DOUBLE_SPIN_CONFIG, scenarioC, mkBaseConcentrations, temporal_crown,
      OPTIMAL_MIN_PLATELETS_PER_UL, OPTIMAL_MAX_PLATELETS_PER_UL, Int_ceil_eq_neg_floor_neg]
  have e2 : finalMixtureConcentration temporal_crown scenarioC 2 false = 400000 := by
    norm_num [finalMixtureConcentration, totalInjectionVolume, totalPlatelets, totalPppNeededML,
      concentrationPppML, volumeTopUpPppML, baseVolumeTopUp, testConcentration,
      totalPrpExtractedML, tubesNeeded, optimalPrpVolumeML, adjustedMinPlatelets,
      recoveryFactor, effectiveRecoveryRate, effectivePrpConcentration, effectivePrpYield,
      DOUBLE_SPIN_CONFIG, scenarioC, mkBaseConcentrations, temporal_crown,
      OPTIMAL_MIN_PLATELETS_PER_UL, OPTIMAL_MAX_PLATELETS_PER_UL, Int_ceil_eq_neg_floor_neg]
  have hplan : getTreatmentPlan temporal_crown scenarioC 0 true =
      planOnce temporal_crown scenarioC 3 false := by
    simp only [getTreatmentPlan, getTreatmentPlanAux, e0, e1, e2]
    norm_num [OPTIMAL_MIN_PLATELETS_PER_UL]
  have htubes : tubesNeeded temporal_crown scenarioC 3 false = 10 := by
    norm_num [tubesNeeded, optimalPrpVolumeML, adjustedMinPlatelets, recoveryFactor,
      effectiveRecoveryRate, effectivePrpConcentration, effectivePrpYield,
      DOUBLE_SPIN_CONFIG, scenarioC, mkBaseConcentrations, temporal_crown,
      Int_ceil_eq_neg_floor_neg]
  refine ⟨hud, hplan, ?_, ?_, ?_, ?_⟩
  · rw [hplan]
    simp only [planOnce]
    norm_num [effectiveRecoveryRate, scenarioC, mkBaseConcentrations]
  · rw [hplan]
    simp only [planOnce]
    exact htubes
  · rw [hplan]
    simp only [planOnce]
    rw [totalPrpExtractedML, htubes]
    norm_num [effectivePrpYield, DOUBLE_SPIN_CONFIG, scenarioC, mkBaseConcentrations]
  · simp only [zoneResult, hud]

/-- A request carrying an explicit `prp_yield` of 0 (claim C5 asserts it must
be rejected). -/
def zeroYieldInput : PatientInput := { thrombocytes := some 200, prp_yield := some 0 }

/-- Counterexample to claim C5: a request with `prp_yield = 0` (which is ≤ 0
as a real number) is not rejected — the 0 is falsy, is replaced by the default
1.0, and the calculation succeeds with full zone plans. -/
theorem validation_zero_yield_counterexample :
    zeroYieldInput.prp_yield = some 0 ∧
    calcSucceeds (calculatePRPDosage zeroYieldInput) = true := by
  refine ⟨rfl, ?_⟩
  simp only [calculatePRPDosage, zeroYieldInput, jsOr]
  norm_num [calcSucceeds]

/-- Claim C5 as amended: validation applies to the values obtained after
zero-to-default substitution, in source order — post-default
`thrombocytes ≤ 0`, then `prp_yield ≤ 0`, then `prp_concentration ≤ 0`, then
`recovery_rate` outside [0,100], then `activation_rate` outside [0,100] each
raise the corresponding error naming the violated constraint, and no plan is
produced (a supplied 0 for an optional field is replaced by its positive
default first, so only negative supplied values can trip the yield and
concentration checks). -/
theorem validation_after_defaulting (i : PatientInput) :
    (jsOr i.thrombocytes 0 ≤ 0 →
      calculatePRPDosage i = .error "Patient thrombocytes must be greater than 0") ∧
    (0 < jsOr i.thrombocytes 0 → jsOr i.prp_yield 1.0 ≤ 0 →
      calculatePRPDosage i = .error "PRP yield per tube must be greater than 0") ∧
    (0 < jsOr i.thrombocytes 0 → 0 < jsOr i.prp_yield 1.0 →
      jsOr i.prp_concentration 4.0 ≤ 0 →
      calculatePRPDosage i = .error "PRP concentration must be greater than 0") ∧
    (0 < jsOr i.thrombocytes 0 → 0 < jsOr i.prp_yield 1.0 →
      0 < jsOr i.prp_concentration 4.0 →
      (jsOr i.recovery_rate 70.0 < 0 ∨ jsOr i.recovery_rate 70.0 > 100) →
      calculatePRPDosage i = .error "Recovery rate must be between 0 and 100") ∧
    (0 < jsOr i.thrombocytes 0 → 0 < jsOr i.prp_yield 1.0 →
      0 < jsOr i.prp_concentration 4.0 →
      ¬ (jsOr i.recovery_rate 70.0 < 0 ∨ jsOr i.recovery_rate 70.0 > 100) →
      (jsOr i.activation_rate 20.0 < 0 ∨ jsOr i.activation_rate 20.0 > 100) →
      calculatePRPDosage i = .error "Activation rate must be between 0 and 100") := by
  refine ⟨fun h1 => ?_, fun h1 h2 => ?_, fun h1 h2 h3 => ?_, fun h1 h2 h3 h4 => ?_,
    fun h1 h2 h3 h4 h5 => ?_⟩ <;>
    simp only [calculatePRPDosage]
  · rw [if_pos h1]
  · rw [if_neg (not_le.mpr h1), if_pos h2]
  · rw [if_neg (not_le.mpr h1), if_neg (not_le.mpr h2), if_pos h3]
  · rw [if_neg (not_le.mpr h1), if_neg (not_le.mpr h2), if_neg (not_le.mpr h3), if_pos h4]
  · rw [if_neg (not_le.mpr h1), if_neg (not_le.mpr h2), if_neg (not_le.mpr h3), if_neg h4,
      if_pos h5]

/-- A request carrying a negative `prp_yield`, which survives the default
filling and must be rejected. -/
def negYieldInput : PatientInput := { thrombocytes := some 200, prp_yield := some (-1) }

/-- Witness for the amended C5: a negative `prp_yield` is rejected with the
yield error. -/
theorem validation_after_defaulting_witness :
    0 < jsOr negYieldInput.thrombocytes 0 ∧
    jsOr negYieldInput.prp_yield 1.0 ≤ 0 ∧
    calculatePRPDosage negYieldInput = .error "PRP yield per tube must be greater than 0" :=
  ⟨by norm_num [negYieldInput, jsOr], by norm_num [negYieldInput, jsOr],
    (validation_after_defaulting negYieldInput).2.1
      (by norm_num [negYieldInput, jsOr]) (by norm_num [negYieldInput, jsOr])⟩

/-- A request carrying a negative `ppp_concentration` (claim C6 asserts it
must be rejected with a concentration error). -/
def negPppInput : PatientInput := { thrombocytes := some 300, ppp_concentration := some (-1) }

/-- Counterexample to claim C6: a request with `ppp_concentration = -1`
(violating the ≥ 0 constraint) is accepted — no validation examines
`ppp_concentration`, and the negative multiplier flows into the planning
arithmetic. -/
theorem ppp_validation_counterexample :
    negPppInput.ppp_concentration = some (-1) ∧
    calcSucceeds (calculatePRPDosage negPppInput) = true := by
  refine ⟨rfl, ?_⟩
  simp only [calculatePRPDosage, negPppInput, jsOr]
  norm_num [calcSucceeds]

/-- Claim C6 as amended: `ppp_concentration` is never validated — whether the
calculation succeeds is entirely independent of the supplied
`ppp_concentration` value (a supplied 0 is replaced by the default 0.5; any
other value, negative ones included, is accepted into the planning
arithmetic). -/
theorem ppp_concentration_not_validated (i : PatientInput) (p q : Option ℚ) :
    calcSucceeds (calculatePRPDosage { i with ppp_concentration := p }) =
      calcSucceeds (calculatePRPDosage { i with ppp_concentration := q }) := by
  simp only [calculatePRPDosage]
  split_ifs <;> rfl

/-- Claim C10: for each optional field, an explicit 0 produces exactly the
same output as omitting the field — `parseFloat(x || default)` replaces the
falsy 0 by the default, so the spec-permitted values
`ppp_concentration = 0`, `recovery_rate = 0` and `activation_rate = 0` can
never reach validation or the planner. -/
theorem zero_equals_omitted_for_optional_fields (i : PatientInput) :
    calculatePRPDosage { i with prp_yield := some 0 } =
      calculatePRPDosage { i with prp_yield := none } ∧
    calculatePRPDosage { i with prp_concentration := some 0 } =
      calculatePRPDosage { i with prp_concentration := none } ∧
    calculatePRPDosage { i with ppp_concentration := some 0 } =
      calculatePRPDosage { i with ppp_concentration := none } ∧
    calculatePRPDosage { i with recovery_rate := some 0 } =
      calculatePRPDosage { i with recovery_rate := none } ∧
    calculatePRPDosage { i with activation_rate := some 0 } =
      calculatePRPDosage { i with activation_rate := none } :=
  ⟨rfl, rfl, rfl, rfl, rfl⟩

end PRP
